import Mathlib

/-
Verification development for the taca-ngi-pipeline delivery engine.

The Python source is shallowly embedded: database entries become records of
field values with explicit absent / null / string states (mirroring the
semantics of dict.get with a default), external collaborators (the Charon
status store, the filesystem, rsync, report generation) become scripted
outcome records, and each orchestration method of deliver.py becomes a pure
Lean function returning its result, the list of externally visible effects
it performed, and the final stored entry.
-/

set_option autoImplicit false

namespace Taca

/-- Value of a field in a status-store document: the key can be absent,
present with a null value, or present with a string value. This mirrors how
dict.get with a default distinguishes an absent key (default returned) from
a key holding None (None returned). -/
inductive DBValue where
  | absent
  | null
  | str (s : String)
  deriving DecidableEq, Repr

/-- Embedding of dict.get(key, default): an absent key yields the default,
a null value yields Python None (modelled as none), a string yields itself. -/
def pyGet (v : DBValue) (dflt : String) : Option String :=
  match v with
  | .absent => some dflt
  | .null => none
  | .str s => some s

/-- Python truthiness of a string-or-None value: None and the empty string
are falsy, every other string is truthy. -/
def truthy : Option String → Bool
  | none => false
  | some s => !s.isEmpty

/-- The fields of a sample document consumed by the delivery logic. -/
structure SampleEntry where
  analysis_status : DBValue
  status : DBValue
  delivery_status : DBValue
  deriving DecidableEq, Repr

/-- Deliverer.get_analysis_status: dbentry.get of analysis_status with
default TO_ANALYZE. -/
def get_analysis_status (e : SampleEntry) : Option String :=
  pyGet e.analysis_status "TO_ANALYZE"

/-- Deliverer.get_sample_status: dbentry.get of status with default FRESH. -/
def get_sample_status (e : SampleEntry) : Option String :=
  pyGet e.status "FRESH"

/-- Deliverer.get_delivery_status: dbentry.get of delivery_status with
default NOT_DELIVERED. -/
def get_delivery_status (e : SampleEntry) : Option String :=
  pyGet e.delivery_status "NOT_DELIVERED"

/-- The fields of a project document consumed by the cluster deliverers
when deciding the project-level delivery status. A missing key and a null
value alike make dict.get (without default) return None, so an Option
captures them exactly; the empty string is handled by truthiness. -/
structure ClusterProjEntry where
  delivery_token : Option String
  delivery_status : Option String
  delivery_projects : List String
  deriving DecidableEq, Repr

/-- GrusProjectDeliverer.get_delivery_status, translated from
deliver_grus.py: an active token (truthy and different from NO-TOKEN) wins
over everything; otherwise a DELIVERED status field; otherwise a nonempty
delivery_projects list gives PARTIAL; otherwise NOT_DELIVERED. -/
def grus_get_delivery_status (e : ClusterProjEntry) : String :=
  if truthy e.delivery_token ∧ e.delivery_token ≠ some "NO-TOKEN" then
    "IN_PROGRESS"
  else if truthy e.delivery_status ∧ e.delivery_status = some "DELIVERED" then
    "DELIVERED"
  else if ¬ e.delivery_projects.isEmpty then
    "PARTIAL"
  else
    "NOT_DELIVERED"

/-- DDSProjectDeliverer.get_delivery_status, translated from
deliver_dds.py: same as the GRUS variant, but the token sentinels are both
NO-TOKEN and not_under_delivery. -/
def dds_get_delivery_status (e : ClusterProjEntry) : String :=
  if truthy e.delivery_token ∧ e.delivery_token ≠ some "NO-TOKEN"
      ∧ e.delivery_token ≠ some "not_under_delivery" then
    "IN_PROGRESS"
  else if truthy e.delivery_status ∧ e.delivery_status = some "DELIVERED" then
    "DELIVERED"
  else if ¬ e.delivery_projects.isEmpty then
    "PARTIAL"
  else
    "NOT_DELIVERED"

/-- Decidable equality for results carried in an Except, used to evaluate
run outcomes on concrete inputs. -/
instance {e a : Type} [DecidableEq e] [DecidableEq a] : DecidableEq (Except e a)
  | .ok x, .ok y =>
    if h : x = y then .isTrue (by rw [h])
    else .isFalse (by intro hc; cases hc; exact h rfl)
  | .ok _, .error _ => .isFalse (by intro hc; cases hc)
  | .error _, .ok _ => .isFalse (by intro hc; cases hc)
  | .error x, .error y =>
    if h : x = y then .isTrue (by rw [h])
    else .isFalse (by intro hc; cases hc; exact h rfl)

/-- Splits a character list into its maximal leading run of uppercase
ASCII letters and the remainder; used to embed the regex class [A-Z]+. -/
def upperRun : List Char → List Char × List Char
  | [] => ([], [])
  | c :: cs =>
    if 'A' ≤ c ∧ c ≤ 'Z' then
      let (r, t) := upperRun cs
      (c :: r, t)
    else
      ([], c :: cs)

/-- Embedding of re.search for the pattern of an opening angle bracket,
one or more uppercase letters, and a closing angle bracket: returns the
name characters of the leftmost match, scanning positions left to right.
Greedy matching of the uppercase run is exact here, because shrinking the
run would leave an uppercase letter where the closing bracket is required. -/
def findTag : List Char → Option (List Char)
  | [] => none
  | c :: cs =>
    if c = '<' then
      match upperRun cs with
      | ([], _) => findTag cs
      | (name, rest) =>
        match rest with
        | '>' :: _ => some name
        | _ => findTag cs
    else
      findTag cs

/-- Embedding of Python str.lower on a single character, for the ASCII
range the placeholder names are drawn from. -/
def lowerChar (c : Char) : Char :=
  if 'A' ≤ c ∧ c ≤ 'Z' then Char.ofNat (c.toNat + 32) else c

/-- Embedding of Python str.lower for placeholder names. -/
def pyLower (s : String) : String :=
  String.mk (s.data.map lowerChar)

/-- Embedding of Python str.replace: replaces the non-overlapping
occurrences of pat left to right by rep. The fuel argument is instantiated
with the length of the scanned list, which every step shortens. -/
def pyReplaceAux (pat rep : List Char) : Nat → List Char → List Char
  | _, [] => []
  | 0, s => s
  | fuel + 1, c :: cs =>
    if pat.isPrefixOf (c :: cs) ∧ pat ≠ [] then
      rep ++ pyReplaceAux pat rep fuel ((c :: cs).drop pat.length)
    else
      c :: pyReplaceAux pat rep fuel cs

/-- Embedding of Python str.replace on strings. -/
def pyReplace (s pat rep : String) : String :=
  String.mk (pyReplaceAux pat.data rep.data s.data.length s.data)

/-- The failure modes of Deliverer.expand_path: the DelivererError raised
when a placeholder has no matching attribute, and fuel exhaustion, which
marks inputs on which the Python recursion would not terminate (an
attribute chain that keeps reintroducing placeholders). -/
inductive ExpandErr where
  | delivererError
  | outOfFuel
  deriving DecidableEq, Repr

/-- Deliverer.expand_path, translated from deliver.py. The instance
attributes are a lookup from lowercase attribute name to value; a None
path (TypeError branch) is returned unchanged; a path without a
placeholder is returned unchanged; the leftmost placeholder of the form of
an uppercase name in angle brackets is replaced everywhere in the path by
the identically named lowercase attribute and the result is re-expanded;
a missing attribute raises DelivererError. Recursion depth is bounded by
fuel, which only the re-expansion step consumes. -/
def expand_path (attrs : String → Option String) :
    Nat → Option String → Except ExpandErr (Option String)
  | 0, none => .ok none
  | 0, some p =>
    match findTag p.data with
    | none => .ok (some p)
    | some name =>
      match attrs (pyLower (String.mk name)) with
      | none => .error .delivererError
      | some _ => .error .outOfFuel
  | _ + 1, none => .ok none
  | fuel + 1, some p =>
    match findTag p.data with
    | none => .ok (some p)
    | some name =>
      match attrs (pyLower (String.mk name)) with
      | none => .error .delivererError
      | some v =>
        expand_path attrs fuel (some (pyReplace p ("<" ++ String.mk name ++ ">") v))

/-- The typed errors raised by utils/filesystem.py gather_files. -/
inductive GatherErr where
  | fileNotFound (spath : String)
  | patternNotMatched (sfile : String)
  deriving DecidableEq, Repr

/-- One manifest tuple yielded by gather_files: source path, destination
path and the optional content digest. -/
structure GatheredFile where
  src : String
  dst : String
  digest : Option String
  deriving DecidableEq, Repr

/-- One entry of the files_to_deliver configuration after path expansion,
together with the filesystem answer to its glob: sfile is the source
pattern (used in the error message), walked is the list of source and
destination path pairs produced by iglob plus the directory walk (the
filesystem is an external collaborator, so its traversal output is an
input here), and required, no_digest are the options dict. -/
structure GatherPattern where
  sfile : String
  walked : List (String × String)
  required : Bool
  no_digest : Bool
  deriving DecidableEq, Repr

/-- Embedding of Python str.endswith over the character lists. -/
def pyEndsWith (s sfx : String) : Bool :=
  sfx.data.isSuffixOf s.data

/-- The checksum-file filter of gather_files: spath.endswith of a dot and
the hash algorithm name. -/
def isChecksumFile (hashAlg : String) (spath : String) : Bool :=
  pyEndsWith spath ("." ++ hashAlg)

/-- The digest computed by the _get_digest helper: skipped when the global
no_checksum flag or the per-pattern no_digest option is set, otherwise the
value obtained from the cached sidecar or from hashing the content, both
external collaborators summarized by digestOf. -/
def gatherDigest (noChecksum : Bool) (noDigest : Bool)
    (digestOf : String → String) (spath : String) : Option String :=
  if noChecksum ∨ noDigest then none else some (digestOf spath)

/-- State of processing the walked paths of one pattern: the match count,
the yielded tuples and the logged warnings, or the raised error. -/
structure PatternOutcome where
  matchCount : Nat
  yielded : List GatheredFile
  warnings : List String
  raised : Option GatherErr
  deriving DecidableEq, Repr

/-- The inner loop of gather_files over the walked paths of one pattern:
checksum files are skipped without counting, every other path counts as a
match, existing paths are yielded with their digest, and a vanished path
(broken symlink or race) raises FileNotFoundException when the pattern is
required and is logged as a warning otherwise. -/
def gatherWalk (hashAlg : String) (noChecksum : Bool)
    (pathExists : String → Bool) (digestOf : String → String)
    (required : Bool) (noDigest : Bool) :
    List (String × String) → PatternOutcome
  | [] => ⟨0, [], [], none⟩
  | (spath, dpath) :: rest =>
    if isChecksumFile hashAlg spath then
      gatherWalk hashAlg noChecksum pathExists digestOf required noDigest rest
    else if pathExists spath then
      let o := gatherWalk hashAlg noChecksum pathExists digestOf required noDigest rest
      ⟨o.matchCount + 1,
        ⟨spath, dpath, gatherDigest noChecksum noDigest digestOf spath⟩ :: o.yielded,
        o.warnings, o.raised⟩
    else if required then
      ⟨1, [], [], some (.fileNotFound spath)⟩
    else
      let o := gatherWalk hashAlg noChecksum pathExists digestOf required noDigest rest
      ⟨o.matchCount + 1, o.yielded,
        ("path " ++ spath ++ " does not exist") :: o.warnings, o.raised⟩

/-- Processing of one whole pattern: run the walk loop, then apply the
zero-match rule of gather_files, raising PatternNotMatchedException when
the pattern is required and logging a warning otherwise. -/
def gatherPattern (hashAlg : String) (noChecksum : Bool)
    (pathExists : String → Bool) (digestOf : String → String)
    (p : GatherPattern) : PatternOutcome :=
  let o := gatherWalk hashAlg noChecksum pathExists digestOf
    p.required p.no_digest p.walked
  match o.raised with
  | some err => ⟨o.matchCount, o.yielded, o.warnings, some err⟩
  | none =>
    if o.matchCount = 0 then
      if p.required then
        ⟨0, o.yielded, o.warnings, some (.patternNotMatched p.sfile)⟩
      else
        ⟨0, o.yielded,
          o.warnings ++ ["no files matching search expression " ++ p.sfile ++ " found"],
          none⟩
    else
      o

/-- The overall result of draining the gather_files generator: either the
full manifest or the first raised error, together with the warnings logged
before that point. -/
structure GatherResult where
  out : Except GatherErr (List GatheredFile)
  warnings : List String
  deriving DecidableEq, Repr

/-- utils/filesystem.py gather_files, translated over a list of patterns:
patterns are processed in order; a raise from one pattern aborts the
generator, otherwise its yielded files and warnings are accumulated and
collection continues with the remaining patterns. -/
def gather_files (hashAlg : String) (noChecksum : Bool)
    (pathExists : String → Bool) (digestOf : String → String) :
    List GatherPattern → GatherResult
  | [] => ⟨.ok [], []⟩
  | p :: rest =>
    let o := gatherPattern hashAlg noChecksum pathExists digestOf p
    match o.raised with
    | some err => ⟨.error err, o.warnings⟩
    | none =>
      let r := gather_files hashAlg noChecksum pathExists digestOf rest
      match r.out with
      | .error err => ⟨.error err, o.warnings ++ r.warnings⟩
      | .ok files => ⟨.ok (o.yielded ++ files), o.warnings ++ r.warnings⟩

/-- The two sidecar files written by Deliverer.stage_delivery, as line
lists: the file list and the digest file. -/
structure StagedSidecars where
  filelist : List String
  digestfile : List String
  deriving DecidableEq, Repr

/-- The loop of Deliverer.stage_delivery, translated from deliver.py for a
completed gather sequence: for every tuple, the symlink staging is
attempted (its failures are only warnings and do not affect the sidecars),
the destination path relative to the staging root is written as a line of
the file list, and when the digest is present a line of digest, two spaces
and the relative path is written to the digest file. The relpath function
is the os.path.relpath collaborator, applied to the destination against
the expanded staging root. -/
def stageWrites (relpath : String → String) :
    List GatheredFile → List String × List String
  | [] => ([], [])
  | e :: rest =>
    let (fl, dl) := stageWrites relpath rest
    (relpath e.dst :: fl,
      match e.digest with
      | some d => (d ++ "  " ++ relpath e.dst) :: dl
      | none => dl)

/-- Deliverer.stage_delivery assembled: the loop output with the basename
of the digest file appended as the final line of the file list. -/
def stage_delivery (relpath : String → String) (digestBasename : String)
    (entries : List GatheredFile) : StagedSidecars :=
  let (fl, dl) := stageWrites relpath entries
  ⟨fl ++ [digestBasename], dl⟩

/-- The exception classes that can cross the deliver_sample and
deliver_project boundaries: DelivererInterruptedError raised by the signal
handler, the other DelivererError conditions (staging, rsync, replace),
db.DatabaseError, and the builtin AttributeError, IOError and remaining
exception classes distinguished by the handlers. -/
inductive Exn where
  | interrupted
  | delivererError
  | databaseError
  | attributeError
  | ioError
  | otherError
  deriving DecidableEq, Repr

/-- Externally visible effects of one deliver_sample run, in order: a
status-store write of the given delivery status (an attempt, recorded even
when the store rejects it), the staging step, the rsync transfer, the
report generation and the acknowledgement file. -/
inductive Ev where
  | statusWrite (status : String)
  | stageCall
  | transferCall
  | reportCall
  | ackCall
  deriving DecidableEq, Repr

/-- The configuration flags consumed by deliver_sample, all defaulting to
false in the source: force, stage_only, ignore_analysis_status, and
whether the report_sample and report_aggregate attributes are set and
truthy (when not, the report block hits AttributeError and passes). -/
structure DeliverConfig where
  force : Bool
  stage_only : Bool
  ignore_analysis_status : Bool
  hasReportConfig : Bool
  deriving DecidableEq, Repr

/-- Scripted outcomes of the external collaborators touched by one
deliver_sample run. readOk covers the db_entry fetches issued by the
status getters during the guard phase (the store is assumed quiescent for
the duration of the call, so all fetches see the same entry; false means
db.DatabaseError). writeFail gives the outcome of update_delivery_status
per written status (none means the write is applied). stageRes and
transferRes are the results of stage_delivery and do_delivery: a bool, or
a raised exception (which for staging includes DelivererError from an
unmatched required pattern and interruption signals). ackFail and
aggregateFail are raised by acknowledge_delivery and aggregate_meta_info;
reportFail by create_report, whose exceptions the report block swallows. -/
structure SampleWorld where
  readOk : Bool
  writeFail : String → Option Exn
  stageRes : Except Exn Bool
  transferRes : Except Exn Bool
  reportFail : Option Exn
  ackFail : Option Exn
  aggregateFail : Option Exn

/-- Result of a deliver_sample run: the returned bool or escaped
exception, the effect trace, and the stored entry after the run. -/
structure RunResult where
  ret : Except Exn Bool
  events : List Ev
  final : SampleEntry
  deriving DecidableEq, Repr

/-- Overwriting the delivery_status field of a stored entry, the effect of
a successful db.update_sample with delivery_status. -/
def setDelivery (e : SampleEntry) (s : String) : SampleEntry :=
  { e with delivery_status := .str s }

/-- One update_delivery_status call: either the raised exception or the
updated entry. -/
def tryWrite (w : SampleWorld) (e : SampleEntry) (s : String) :
    Except Exn SampleEntry :=
  match w.writeFail s with
  | some ex => .error ex
  | none => .ok (setDelivery e s)

/-- The tail of the happy path of deliver_sample: the
aggregate_meta_info call, whose exception (if any) escapes to the outer
handlers. -/
def aggregateStep (w : SampleWorld) (evs : List Ev) (e : SampleEntry) :
    Except Exn Bool × List Ev × SampleEntry :=
  match w.aggregateFail with
  | some ex => (.error ex, evs, e)
  | none => (.ok true, evs, e)

/-- The body of SampleDeliverer.deliver_sample from deliver.py, before the
outer exception wrapper: the guard chain evaluated in source order against
the stored entry (the analysis guard, the already-delivered short-circuit,
the in-progress mutual-exclusion guard, the aborted normalization, the
fresh guard and the failed retry log), then the IN_PROGRESS write, the
best-effort report block (which swallows every create_report exception),
the staging step, and either the transfer with the DELIVERED write and the
acknowledgement (AttributeError and IOError from it are swallowed) or, in
stage_only mode, the STAGED write, and finally aggregate_meta_info. The
deliverer is assumed well configured, so the logging path expansions at
the top of the method succeed. -/
def deliver_sample_body (cfg : DeliverConfig) (entry : SampleEntry)
    (w : SampleWorld) : Except Exn Bool × List Ev × SampleEntry :=
  if ¬ w.readOk then
    (.error .databaseError, [], entry)
  else if get_analysis_status entry ≠ some "ANALYZED" ∧ ¬ cfg.force
      ∧ ¬ cfg.ignore_analysis_status then
    (.ok false, [], entry)
  else if get_delivery_status entry = some "DELIVERED" ∧ ¬ cfg.force then
    (.ok true, [], entry)
  else if get_delivery_status entry = some "IN_PROGRESS" ∧ ¬ cfg.force then
    (.ok false, [], entry)
  else if get_sample_status entry = some "ABORTED" then
    if truthy (get_delivery_status entry) then
      match tryWrite w entry "NOT_DELIVERED" with
      | .error ex => (.error ex, [.statusWrite "NOT_DELIVERED"], entry)
      | .ok e1 => (.ok true, [.statusWrite "NOT_DELIVERED"], e1)
    else
      (.ok true, [], entry)
  else if get_sample_status entry = some "FRESH" ∧ ¬ cfg.force then
    (.ok false, [], entry)
  else
    match tryWrite w entry "IN_PROGRESS" with
    | .error ex => (.error ex, [.statusWrite "IN_PROGRESS"], entry)
    | .ok e1 =>
      let evs0 := .statusWrite "IN_PROGRESS"
        :: (if cfg.hasReportConfig then [.reportCall] else [])
      match w.stageRes with
      | .error ex => (.error ex, evs0 ++ [.stageCall], e1)
      | .ok false => (.error .delivererError, evs0 ++ [.stageCall], e1)
      | .ok true =>
        let evs1 := evs0 ++ [.stageCall]
        if ¬ cfg.stage_only then
          match w.transferRes with
          | .error ex => (.error ex, evs1 ++ [.transferCall], e1)
          | .ok false => (.error .delivererError, evs1 ++ [.transferCall], e1)
          | .ok true =>
            match tryWrite w e1 "DELIVERED" with
            | .error ex =>
              (.error ex, evs1 ++ [.transferCall, .statusWrite "DELIVERED"], e1)
            | .ok e2 =>
              let evs2 := evs1 ++ [.transferCall, .statusWrite "DELIVERED", .ackCall]
              match w.ackFail with
              | some .attributeError => aggregateStep w evs2 e2
              | some .ioError => aggregateStep w evs2 e2
              | some ex => (.error ex, evs2, e2)
              | none => aggregateStep w evs2 e2
        else
          match tryWrite w e1 "STAGED" with
          | .error ex => (.error ex, evs1 ++ [.statusWrite "STAGED"], e1)
          | .ok e2 => aggregateStep w (evs1 ++ [.statusWrite "STAGED"]) e2

/-- SampleDeliverer.deliver_sample: the body wrapped in the outer handlers
of deliver.py, which force the stored status to NOT_DELIVERED when a
DelivererInterruptedError escapes the body and to FAILED when any other
exception escapes, then re-raise; an exception raised by the compensating
write itself propagates in its place. -/
def deliver_sample (cfg : DeliverConfig) (entry : SampleEntry)
    (w : SampleWorld) : RunResult :=
  match deliver_sample_body cfg entry w with
  | (.ok b, evs, e) => ⟨.ok b, evs, e⟩
  | (.error .interrupted, evs, e) =>
    match tryWrite w e "NOT_DELIVERED" with
    | .error ex2 => ⟨.error ex2, evs ++ [.statusWrite "NOT_DELIVERED"], e⟩
    | .ok e1 => ⟨.error .interrupted, evs ++ [.statusWrite "NOT_DELIVERED"], e1⟩
  | (.error ex, evs, e) =>
    match tryWrite w e "FAILED" with
    | .error ex2 => ⟨.error ex2, evs ++ [.statusWrite "FAILED"], e⟩
    | .ok e1 => ⟨.error ex, evs ++ [.statusWrite "FAILED"], e1⟩

/-- ProjectDeliverer.all_samples_delivered: every sample entry whose
sample status is not ABORTED has delivery status DELIVERED. -/
def all_samples_delivered (es : List SampleEntry) : Bool :=
  es.all fun s =>
    if get_sample_status s ≠ some "ABORTED" then
      get_delivery_status s = some "DELIVERED"
    else
      true

/-- The fields of a project document consumed by deliver_project. -/
structure ProjEntry where
  delivery_status : DBValue
  deriving DecidableEq, Repr

/-- The base-class get_delivery_status applied to the project entry. -/
def get_proj_delivery_status (e : ProjEntry) : Option String :=
  pyGet e.delivery_status "NOT_DELIVERED"

/-- Scripted outcomes of the external collaborators of one deliver_project
run: the project db_entry fetch for the short-circuit guard, the
project_sample_entries fetches (used both to list the samples and to
recompute all_samples_delivered, under the same quiescent-store
assumption), the per-sample entries and worlds consumed by the inner
deliver_sample calls, the miscellaneous-files delivery (whose rsync errors
propagate as DelivererRsyncError while its staging errors are only
warnings), the meta-info aggregation, the final aggregate report step
(hasReportAggregate is whether the report_aggregate attribute is set and
truthy; a create_report failure is re-raised), the project-level
update_delivery_status, and the acknowledgement (AttributeError and
IOError swallowed). The copy-report block swallows all its exceptions and
is not modelled. -/
structure ProjWorld where
  readOk : Bool
  samplesReadOk : Bool
  samples : List (SampleEntry × SampleWorld)
  miscFail : Option Exn
  aggregateFail : Option Exn
  hasReportAggregate : Bool
  reportFail : Option Exn
  projWriteFail : Option Exn
  ackFail : Option Exn

/-- Result of a deliver_project run: the returned bool or escaped
exception, the project-level delivery-status writes attempted, and the
sample entries as stored after the run. -/
structure ProjResult where
  ret : Except Exn Bool
  projWrites : List String
  finalSamples : List SampleEntry
  deriving DecidableEq, Repr

/-- The sample loop of deliver_project: each sample goes through
deliver_sample (built without keyword overrides, but sharing the mutated
global config dict, hence the same flags, and with save_meta_info forced
to False so the per-sample aggregation is a no-op), successes are
accumulated conjunctively, and a raised exception aborts the loop and
propagates. The stored entries of samples not yet processed when the loop
aborts keep their prior state. -/
def runSamples (cfg : DeliverConfig) :
    List (SampleEntry × SampleWorld) → Except Exn Bool × List SampleEntry
  | [] => (.ok true, [])
  | (e, w) :: rest =>
    let r := deliver_sample cfg e { w with aggregateFail := none }
    match r.ret with
    | .error ex => (.error ex, r.final :: rest.map Prod.fst)
    | .ok b =>
      let (res, es) := runSamples cfg rest
      match res with
      | .error ex => (.error ex, r.final :: es)
      | .ok status => (.ok (b && status), r.final :: es)

/-- ProjectDeliverer.deliver_project from deliver.py: the short-circuit
when the project is already DELIVERED and not forced; the sample loop; the
miscellaneous-files delivery; the meta-info aggregation; then, only when
all_samples_delivered holds over the stored sample entries, the final
aggregate report (a failure there re-raises before any status write), the
single project-level write of DELIVERED, or STAGED in stage_only mode, and
the acknowledgement; the accumulated sample success flag is returned. The
outer exception handler only re-raises, so no compensating project-level
write exists. The deliverer is assumed well configured, so the logging
path expansions at the top of the method succeed. -/
def deliver_project (cfg : DeliverConfig) (pentry : ProjEntry)
    (pw : ProjWorld) : ProjResult :=
  if ¬ pw.readOk then
    ⟨.error .databaseError, [], pw.samples.map Prod.fst⟩
  else if get_proj_delivery_status pentry = some "DELIVERED" ∧ ¬ cfg.force then
    ⟨.ok true, [], pw.samples.map Prod.fst⟩
  else if ¬ pw.samplesReadOk then
    ⟨.error .databaseError, [], pw.samples.map Prod.fst⟩
  else
    match runSamples cfg pw.samples with
    | (.error ex, finals) => ⟨.error ex, [], finals⟩
    | (.ok status, finals) =>
      match pw.miscFail with
      | some ex => ⟨.error ex, [], finals⟩
      | none =>
        match pw.aggregateFail with
        | some ex => ⟨.error ex, [], finals⟩
        | none =>
          if all_samples_delivered finals then
            match (if pw.hasReportAggregate then pw.reportFail else none) with
            | some ex => ⟨.error ex, [], finals⟩
            | none =>
              let updated := if cfg.stage_only then "STAGED" else "DELIVERED"
              match pw.projWriteFail with
              | some ex => ⟨.error ex, [updated], finals⟩
              | none =>
                match pw.ackFail with
                | some .attributeError => ⟨.ok status, [updated], finals⟩
                | some .ioError => ⟨.ok status, [updated], finals⟩
                | some ex => ⟨.error ex, [updated], finals⟩
                | none => ⟨.ok status, [updated], finals⟩
          else
            ⟨.ok status, [], finals⟩

/-- C10: in the cluster deliverer variants, the project-level
get_delivery_status gives the delivery token precedence over the stored
status field: whenever delivery_token is set (truthy) and is not a
sentinel (NO-TOKEN, and additionally not_under_delivery for the DDS
variant), the result is IN_PROGRESS even if the delivery_status field is
DELIVERED; with no active token the result is DELIVERED if the
delivery_status field is DELIVERED, else PARTIAL if delivery_projects is
non-empty, else NOT_DELIVERED. -/
theorem c10_cluster_status_token_precedence (e : ClusterProjEntry) :
    (truthy e.delivery_token = true ∧ e.delivery_token ≠ some "NO-TOKEN" →
      grus_get_delivery_status e = "IN_PROGRESS")
    ∧ (truthy e.delivery_token = true ∧ e.delivery_token ≠ some "NO-TOKEN"
        ∧ e.delivery_token ≠ some "not_under_delivery" →
      dds_get_delivery_status e = "IN_PROGRESS")
    ∧ (¬(truthy e.delivery_token = true ∧ e.delivery_token ≠ some "NO-TOKEN") →
      grus_get_delivery_status e =
        (if e.delivery_status = some "DELIVERED" then "DELIVERED"
         else if ¬ e.delivery_projects.isEmpty then "PARTIAL"
         else "NOT_DELIVERED"))
    ∧ (¬(truthy e.delivery_token = true ∧ e.delivery_token ≠ some "NO-TOKEN"
        ∧ e.delivery_token ≠ some "not_under_delivery") →
      dds_get_delivery_status e =
        (if e.delivery_status = some "DELIVERED" then "DELIVERED"
         else if ¬ e.delivery_projects.isEmpty then "PARTIAL"
         else "NOT_DELIVERED")) := by
  obtain ⟨tok, st, projs⟩ := e
  refine ⟨fun h => ?_, fun h => ?_, fun h => ?_, fun h => ?_⟩
  · simp only [grus_get_delivery_status]
    rw [if_pos ⟨h.1, h.2⟩]
  · simp only [dds_get_delivery_status]
    rw [if_pos ⟨h.1, h.2.1, h.2.2⟩]
  · simp only [grus_get_delivery_status]
    rw [if_neg h]
    rcases st with _ | s
    · simp [truthy]
    · by_cases hd : s = "DELIVERED"
      · subst hd
        simp [truthy]
        intro hx
        exact absurd hx (by decide)
      · simp [truthy, hd]
  · simp only [dds_get_delivery_status]
    rw [if_neg h]
    rcases st with _ | s
    · simp [truthy]
    · by_cases hd : s = "DELIVERED"
      · subst hd
        simp [truthy]
        intro hx
        exact absurd hx (by decide)
      · simp [truthy, hd]

/-- Witness for C10 at a concrete project entry: an active token makes
both variants report IN_PROGRESS although the status field says
DELIVERED, and without a token the DELIVERED field wins. -/
theorem c10_witness :
    grus_get_delivery_status ⟨some "tok42", some "DELIVERED", []⟩ = "IN_PROGRESS"
    ∧ dds_get_delivery_status ⟨some "tok42", some "DELIVERED", []⟩ = "IN_PROGRESS"
    ∧ grus_get_delivery_status ⟨none, some "DELIVERED", []⟩ = "DELIVERED" :=
  ⟨(c10_cluster_status_token_precedence ⟨some "tok42", some "DELIVERED", []⟩).1
      ⟨by decide, by decide⟩,
    (c10_cluster_status_token_precedence ⟨some "tok42", some "DELIVERED", []⟩).2.1
      ⟨by decide, by decide, by decide⟩,
    by
      have h := (c10_cluster_status_token_precedence ⟨none, some "DELIVERED", []⟩).2.2.1
        (by decide)
      simpa using h⟩

/-- Counterexample for C9: the source regex only recognizes placeholders
written with angle brackets, so a legacy underscore placeholder is not
replaced even though the identically named lowercase attribute exists; the
input comes back unchanged instead of expanding to P1. -/
theorem c9_counterexample :
    (fun n => if n = "projectid" then some "P1" else none : String → Option String)
        "projectid" = some "P1"
    ∧ expand_path (fun n => if n = "projectid" then some "P1" else none) 5
        (some "_PROJECTID_") = .ok (some "_PROJECTID_") := by
  constructor
  · decide
  · decide

/-- C9 amended: expand_path returns a null input unchanged; returns an
input without an angle-bracket placeholder unchanged (legacy underscore
placeholders are not recognized and fall under this case); raises
DelivererError when the leftmost placeholder has no identically named
all-lowercase attribute; and otherwise replaces every occurrence of that
placeholder by the attribute value and re-scans the result recursively. -/
theorem c9_expand_path_contract (attrs : String → Option String) (fuel : Nat)
    (p : String) :
    (expand_path attrs fuel none = .ok none)
    ∧ (findTag p.data = none → expand_path attrs fuel (some p) = .ok (some p))
    ∧ (∀ name, findTag p.data = some name →
        attrs (pyLower (String.mk name)) = none →
        expand_path attrs fuel (some p) = .error .delivererError)
    ∧ (∀ name v, findTag p.data = some name →
        attrs (pyLower (String.mk name)) = some v →
        expand_path attrs (fuel + 1) (some p) =
          expand_path attrs fuel
            (some (pyReplace p ("<" ++ String.mk name ++ ">") v))) := by
  refine ⟨?_, fun h => ?_, fun name h ha => ?_, fun name v h ha => ?_⟩
  · cases fuel <;> rfl
  · cases fuel <;> simp [expand_path, h]
  · cases fuel <;> simp [expand_path, h, ha]
  · simp [expand_path, h, ha]

/-- Witness for C9 at a concrete template: one recursion step substitutes
the leftmost placeholder everywhere and re-expands, and a template whose
placeholder has no matching attribute raises DelivererError. -/
theorem c9_witness :
    expand_path (fun n => if n = "a" then some "x" else none) 5 (some "<A>/<A>") =
      expand_path (fun n => if n = "a" then some "x" else none) 4
        (some (pyReplace "<A>/<A>" ("<" ++ String.mk ['A'] ++ ">") "x"))
    ∧ expand_path (fun _ => none) 7 (some "y/<SAMPLEID>") = .error .delivererError :=
  ⟨(c9_expand_path_contract (fun n => if n = "a" then some "x" else none) 4
      "<A>/<A>").2.2.2 ['A'] "x" (by decide) (by decide),
    (c9_expand_path_contract (fun _ => none) 7 "y/<SAMPLEID>").2.2.1
      ['S', 'A', 'M', 'P', 'L', 'E', 'I', 'D'] (by decide) rfl⟩

/-- A pattern whose walked paths are all checksum files accumulates no
matches, yields, warnings or raise. -/
theorem gatherWalk_all_checksum (alg : String) (noCk : Bool)
    (pathExists : String → Bool) (digestOf : String → String)
    (req nd : Bool) (walked : List (String × String))
    (h : ∀ q ∈ walked, isChecksumFile alg q.1 = true) :
    gatherWalk alg noCk pathExists digestOf req nd walked = ⟨0, [], [], none⟩ := by
  induction walked with
  | nil => rfl
  | cons q rest ih =>
    obtain ⟨sp, dp⟩ := q
    have hq : isChecksumFile alg sp = true := h (sp, dp) (List.mem_cons_self _ _)
    rw [gatherWalk, if_pos hq]
    exact ih fun x hx => h x (List.mem_cons_of_mem _ hx)

/-- A pattern that is not required never raises from its walk loop. -/
theorem gatherWalk_not_required_no_raise (alg : String) (noCk : Bool)
    (pathExists : String → Bool) (digestOf : String → String)
    (nd : Bool) (walked : List (String × String)) :
    (gatherWalk alg noCk pathExists digestOf false nd walked).raised = none := by
  induction walked with
  | nil => rfl
  | cons q rest ih =>
    obtain ⟨sp, dp⟩ := q
    rw [gatherWalk]
    by_cases hck : isChecksumFile alg sp = true
    · rw [if_pos hck]
      exact ih
    · rw [if_neg hck]
      by_cases hex : pathExists sp = true
      · rw [if_pos hex]
        exact ih
      · rw [if_neg hex, if_neg (by simp)]
        exact ih

/-- A required pattern whose walk hits a vanished non-checksum path raises
FileNotFoundException for some vanished path. -/
theorem gatherWalk_required_broken (alg : String) (noCk : Bool)
    (pathExists : String → Bool) (digestOf : String → String)
    (nd : Bool) (walked : List (String × String))
    (h : ∃ q ∈ walked, isChecksumFile alg q.1 = false ∧ pathExists q.1 = false) :
    ∃ s, (gatherWalk alg noCk pathExists digestOf true nd walked).raised
        = some (.fileNotFound s) ∧ pathExists s = false := by
  induction walked with
  | nil => simp at h
  | cons q rest ih =>
    obtain ⟨sp, dp⟩ := q
    rw [gatherWalk]
    by_cases hck : isChecksumFile alg sp = true
    · rw [if_pos hck]
      refine ih ?_
      rcases h with ⟨x, hx, hxcs, hxex⟩
      rcases List.mem_cons.mp hx with hx0 | hx1
      · subst hx0
        simp [hck] at hxcs
      · exact ⟨x, hx1, hxcs, hxex⟩
    · rw [if_neg hck]
      by_cases hex : pathExists sp = true
      · rw [if_pos hex]
        have hrest : ∃ x ∈ rest, isChecksumFile alg x.1 = false ∧ pathExists x.1 = false := by
          rcases h with ⟨x, hx, hxcs, hxex⟩
          rcases List.mem_cons.mp hx with hx0 | hx1
          · subst hx0
            simp [hex] at hxex
          · exact ⟨x, hx1, hxcs, hxex⟩
        rcases ih hrest with ⟨s, hs, hsex⟩
        exact ⟨s, by simpa using hs, hsex⟩
      · rw [if_neg hex, if_pos rfl]
        exact ⟨sp, rfl, by simpa using hex⟩

/-- A vanished non-checksum path of a non-required pattern leaves its
warning in the walk outcome. -/
theorem gatherWalk_broken_warning (alg : String) (noCk : Bool)
    (pathExists : String → Bool) (digestOf : String → String)
    (nd : Bool) (walked : List (String × String)) (sp : String)
    (hmem : ∃ dp, (sp, dp) ∈ walked)
    (hck : isChecksumFile alg sp = false) (hex : pathExists sp = false) :
    ("path " ++ sp ++ " does not exist")
      ∈ (gatherWalk alg noCk pathExists digestOf false nd walked).warnings := by
  induction walked with
  | nil => simp at hmem
  | cons q rest ih =>
    obtain ⟨sq, dq⟩ := q
    rw [gatherWalk]
    rcases hmem with ⟨dp, hdp⟩
    rcases List.mem_cons.mp hdp with h0 | h1
    · cases h0
      rw [if_neg (by simp [hck]), if_neg (by simp [hex]), if_neg (by simp)]
      exact List.mem_cons_self _ _
    · by_cases hckq : isChecksumFile alg sq = true
      · rw [if_pos hckq]
        exact ih ⟨dp, h1⟩
      · rw [if_neg hckq]
        by_cases hexq : pathExists sq = true
        · rw [if_pos hexq]
          exact ih ⟨dp, h1⟩
        · rw [if_neg hexq, if_neg (by simp)]
          exact List.mem_cons_of_mem _ (ih ⟨dp, h1⟩)

/-- A non-required pattern never raises. -/
theorem gatherPattern_not_required_no_raise (alg : String) (noCk : Bool)
    (pathExists : String → Bool) (digestOf : String → String)
    (p : GatherPattern) (hreq : p.required = false) :
    (gatherPattern alg noCk pathExists digestOf p).raised = none := by
  obtain ⟨sfile, walked, required, nd⟩ := p
  cases hreq
  by_cases h0 :
      (gatherWalk alg noCk pathExists digestOf false nd walked).matchCount = 0
  · simp [gatherPattern, gatherWalk_not_required_no_raise, h0]
  · simp [gatherPattern, gatherWalk_not_required_no_raise, h0]

/-- The walk warnings survive into the pattern outcome. -/
theorem gatherPattern_warnings_of_walk (alg : String) (noCk : Bool)
    (pathExists : String → Bool) (digestOf : String → String)
    (p : GatherPattern) (m : String)
    (hm : m ∈ (gatherWalk alg noCk pathExists digestOf
        p.required p.no_digest p.walked).warnings) :
    m ∈ (gatherPattern alg noCk pathExists digestOf p).warnings := by
  obtain ⟨sfile, walked, required, nd⟩ := p
  simp only at hm
  rcases hr : (gatherWalk alg noCk pathExists digestOf required nd walked).raised
    with _ | err
  · by_cases h0 : (gatherWalk alg noCk pathExists digestOf required nd walked).matchCount = 0
    · cases required
      · simp only [gatherPattern, hr, h0]
        simp only [Bool.false_eq_true, if_false, if_true]
        exact List.mem_append_left _ hm
      · simp [gatherPattern, hr, h0, hm]
    · simp [gatherPattern, hr, h0, hm]
  · simp [gatherPattern, hr, hm]

/-- C8: for every file pattern given to gather_files, a pattern matching
zero source paths (here: every walked path is a checksum file, which the
collection skips) raises the typed PatternNotMatchedException exactly when
the pattern is marked required, and otherwise logs a warning while the
remaining patterns are still collected (the overall outcome equals that of
the remaining patterns); likewise a matched path that no longer exists at
digest time raises the typed FileNotFoundException when required, and
otherwise only logs a warning, never raises, and the collection continues
with the yielded files of this pattern followed by those of the rest. -/
theorem c8_gather_required_vs_warn (alg : String) (noCk : Bool)
    (pathExists : String → Bool) (digestOf : String → String)
    (p : GatherPattern) (rest : List GatherPattern) :
    ((∀ q ∈ p.walked, isChecksumFile alg q.1 = true) →
        (p.required = true →
          (gather_files alg noCk pathExists digestOf (p :: rest)).out
            = .error (.patternNotMatched p.sfile))
      ∧ (p.required = false →
          ("no files matching search expression " ++ p.sfile ++ " found")
            ∈ (gather_files alg noCk pathExists digestOf (p :: rest)).warnings
          ∧ (gather_files alg noCk pathExists digestOf (p :: rest)).out
            = (gather_files alg noCk pathExists digestOf rest).out))
    ∧ (p.required = true →
        (∃ q ∈ p.walked, isChecksumFile alg q.1 = false ∧ pathExists q.1 = false) →
        ∃ s, (gather_files alg noCk pathExists digestOf (p :: rest)).out
            = .error (.fileNotFound s) ∧ pathExists s = false)
    ∧ (p.required = false →
        (gatherPattern alg noCk pathExists digestOf p).raised = none
      ∧ (∀ sp dp, (sp, dp) ∈ p.walked → isChecksumFile alg sp = false →
          pathExists sp = false →
          ("path " ++ sp ++ " does not exist")
            ∈ (gather_files alg noCk pathExists digestOf (p :: rest)).warnings)
      ∧ (∀ fs, (gather_files alg noCk pathExists digestOf rest).out = .ok fs →
          (gather_files alg noCk pathExists digestOf (p :: rest)).out
            = .ok ((gatherPattern alg noCk pathExists digestOf p).yielded ++ fs))) := by
  obtain ⟨sfile, walked, required, nd⟩ := p
  refine ⟨fun hz => ⟨fun hreq => ?_, fun hreq => ?_⟩,
    fun hreq hb => ?_, fun hreq => ⟨?_, fun sp dp hmem hck hex => ?_, fun fs hfs => ?_⟩⟩
  · cases hreq
    rw [gather_files]
    simp [gatherPattern, gatherWalk_all_checksum alg noCk pathExists digestOf _ _ _ hz]
  · cases hreq
    rw [gather_files]
    simp only [gatherPattern,
      gatherWalk_all_checksum alg noCk pathExists digestOf _ _ _ hz]
    rcases hr : (gather_files alg noCk pathExists digestOf rest).out with err | fsr
    · simp [hr]
    · simp [hr]
  · cases hreq
    rcases gatherWalk_required_broken alg noCk pathExists digestOf nd walked hb
      with ⟨s, hs, hsex⟩
    refine ⟨s, ?_, hsex⟩
    rw [gather_files]
    simp [gatherPattern, hs]
  · exact gatherPattern_not_required_no_raise alg noCk pathExists digestOf _ hreq
  · cases hreq
    have hw := gatherWalk_broken_warning alg noCk pathExists digestOf nd walked sp
      ⟨dp, hmem⟩ hck hex
    have hwp := gatherPattern_warnings_of_walk alg noCk pathExists digestOf
      ⟨sfile, walked, false, nd⟩ _ hw
    have hnr := gatherPattern_not_required_no_raise alg noCk pathExists digestOf
      ⟨sfile, walked, false, nd⟩ rfl
    rw [gather_files]
    rcases hgp : gatherPattern alg noCk pathExists digestOf ⟨sfile, walked, false, nd⟩
      with ⟨mc, ys, ws, rs⟩
    rw [hgp] at hwp hnr
    simp only at hwp hnr
    cases hnr
    rcases hrr : (gather_files alg noCk pathExists digestOf rest).out with err | fsr
    · simp [hrr, hwp]
    · simp [hrr, hwp]
  · cases hreq
    have hnr := gatherPattern_not_required_no_raise alg noCk pathExists digestOf
      ⟨sfile, walked, false, nd⟩ rfl
    rw [gather_files]
    rcases hgp : gatherPattern alg noCk pathExists digestOf ⟨sfile, walked, false, nd⟩
      with ⟨mc, ys, ws, rs⟩
    rw [hgp] at hnr
    simp only at hnr
    cases hnr
    simp [hfs]

/-- Witness for C8: a required pattern matching only a checksum sidecar
raises PatternNotMatchedException, while the same pattern without the
required mark yields the empty-match warning and lets a later pattern
deliver its file. -/
theorem c8_witness :
    (gather_files "md5" false (fun _ => true) (fun _ => "d0")
        [⟨"*.fastq", [("a.md5", "dest/a.md5")], true, false⟩]).out
      = .error (.patternNotMatched "*.fastq")
    ∧ ("no files matching search expression *.fastq found")
      ∈ (gather_files "md5" false (fun _ => true) (fun _ => "d0")
        [⟨"*.fastq", [("a.md5", "dest/a.md5")], false, false⟩,
          ⟨"*.bam", [("b.bam", "dest/b.bam")], false, false⟩]).warnings :=
  ⟨((c8_gather_required_vs_warn "md5" false (fun _ => true) (fun _ => "d0")
      ⟨"*.fastq", [("a.md5", "dest/a.md5")], true, false⟩ []).1
      (by decide)).1 rfl,
    (((c8_gather_required_vs_warn "md5" false (fun _ => true) (fun _ => "d0")
      ⟨"*.fastq", [("a.md5", "dest/a.md5")], false, false⟩
      [⟨"*.bam", [("b.bam", "dest/b.bam")], false, false⟩]).1
      (by decide)).2 rfl).1⟩

/-- Each gathered tuple contributes its file-list line, and its digest
line when the digest is present, to the loop output of stage_delivery. -/
theorem stageWrites_mem (relpath : String → String)
    (entries : List GatheredFile) (e : GatheredFile) (he : e ∈ entries) :
    relpath e.dst ∈ (stageWrites relpath entries).1
    ∧ ∀ d, e.digest = some d →
        (d ++ "  " ++ relpath e.dst) ∈ (stageWrites relpath entries).2 := by
  induction entries with
  | nil => simp at he
  | cons x rest ih =>
    rcases List.mem_cons.mp he with h0 | h1
    · subst h0
      constructor
      · rw [stageWrites]
        exact List.mem_cons_self _ _
      · intro d hd
        rw [stageWrites]
        simp only [hd]
        exact List.mem_cons_self _ _
    · rcases ih h1 with ⟨hfl, hdl⟩
      constructor
      · rw [stageWrites]
        exact List.mem_cons_of_mem _ hfl
      · intro d hd
        rw [stageWrites]
        rcases hx : x.digest with _ | dx
        · simpa using hdl d hd
        · simp only [hx]
          exact List.mem_cons_of_mem _ (hdl d hd)

/-- C6: for every tuple yielded by gather_files and consumed by
stage_delivery, the destination path relative to the staging root is one
line of the file-list sidecar, and when the digest is non-null the line of
digest, two spaces and the relative path is in the digest sidecar; the
basename of the digest sidecar itself is the final line of the file list. -/
theorem c6_stage_roundtrip (relpath : String → String) (base : String)
    (entries : List GatheredFile) :
    (∀ e ∈ entries,
      relpath e.dst ∈ (stage_delivery relpath base entries).filelist
      ∧ ∀ d, e.digest = some d →
        (d ++ "  " ++ relpath e.dst) ∈ (stage_delivery relpath base entries).digestfile)
    ∧ (stage_delivery relpath base entries).filelist.getLast? = some base := by
  constructor
  · intro e he
    rcases stageWrites_mem relpath entries e he with ⟨hfl, hdl⟩
    constructor
    · simp only [stage_delivery]
      exact List.mem_append_left _ hfl
    · intro d hd
      simpa [stage_delivery] using hdl d hd
  · simp only [stage_delivery]
    exact List.getLast?_concat _

/-- Witness for C6 on a concrete gather output of one file with a digest
and one directory placeholder without one. -/
theorem c6_witness :
    ("P1/a.fastq" ∈ (stage_delivery (fun d => d) "S1.sha1"
        [⟨"/src/a.fastq", "P1/a.fastq", some "d1"⟩,
          ⟨"/src/dir", "P1/dir", none⟩]).filelist
      ∧ ("d1  P1/a.fastq") ∈ (stage_delivery (fun d => d) "S1.sha1"
        [⟨"/src/a.fastq", "P1/a.fastq", some "d1"⟩,
          ⟨"/src/dir", "P1/dir", none⟩]).digestfile)
    ∧ (stage_delivery (fun d => d) "S1.sha1"
        [⟨"/src/a.fastq", "P1/a.fastq", some "d1"⟩,
          ⟨"/src/dir", "P1/dir", none⟩]).filelist.getLast? = some "S1.sha1" := by
  have h := c6_stage_roundtrip (fun d => d) "S1.sha1"
    [⟨"/src/a.fastq", "P1/a.fastq", some "d1"⟩, ⟨"/src/dir", "P1/dir", none⟩]
  refine ⟨?_, h.2⟩
  have he := h.1 ⟨"/src/a.fastq", "P1/a.fastq", some "d1"⟩ (List.mem_cons_self _ _)
  exact ⟨he.1, he.2 "d1" rfl⟩

/-- C1: for a sample whose stored delivery status is IN_PROGRESS, a
deliver_sample call without the force flag (and with the store readable)
returns False, performs no filesystem mutation and writes nothing to the
status store: the run result is the busy return with an empty effect trace
and the entry unchanged. -/
theorem c1_in_progress_busy (cfg : DeliverConfig) (entry : SampleEntry)
    (w : SampleWorld) (hf : cfg.force = false) (hr : w.readOk = true)
    (hip : entry.delivery_status = .str "IN_PROGRESS") :
    deliver_sample cfg entry w = ⟨.ok false, [], entry⟩ := by
  have hds : get_delivery_status entry = some "IN_PROGRESS" := by
    simp [get_delivery_status, hip, pyGet]
  by_cases h1 : get_analysis_status entry ≠ some "ANALYZED"
      ∧ ¬(cfg.force = true) ∧ ¬(cfg.ignore_analysis_status = true)
  · simp [deliver_sample, deliver_sample_body, hr, h1]
  · simp [deliver_sample, deliver_sample_body, hr, h1, hds, hf]

/-- Witness for C1 at a concrete analyzed sample stuck at IN_PROGRESS. -/
theorem c1_witness :
    deliver_sample ⟨false, false, false, false⟩
      ⟨.str "ANALYZED", .str "STALE", .str "IN_PROGRESS"⟩
      ⟨true, fun _ => none, .ok true, .ok true, none, none, none⟩
      = ⟨.ok false, [], ⟨.str "ANALYZED", .str "STALE", .str "IN_PROGRESS"⟩⟩ :=
  c1_in_progress_busy ⟨false, false, false, false⟩
    ⟨.str "ANALYZED", .str "STALE", .str "IN_PROGRESS"⟩
    ⟨true, fun _ => none, .ok true, .ok true, none, none, none⟩
    rfl rfl rfl

/-- Counterexample for C3: when the status store raises DatabaseError
during the guard reads, deliver_sample does not abort without status
writes; the generic exception wrapper issues a compensating
update_delivery_status FAILED on the DatabaseError propagation path. -/
theorem c3_counterexample :
    deliver_sample ⟨false, false, false, false⟩ ⟨.absent, .absent, .absent⟩
      ⟨false, fun _ => none, .ok true, .ok true, none, none, none⟩
      = ⟨.error .databaseError, [.statusWrite "FAILED"],
          ⟨.absent, .absent, .str "FAILED"⟩⟩ := by
  decide

/-- C3 amended: when a DatabaseError is raised by the status-store reads
of the guard phase, the inner handler logs and re-raises it, and the outer
generic exception handler then attempts one compensating write setting the
delivery status to FAILED (here assumed accepted by the store) before the
DatabaseError propagates to the caller. -/
theorem c3_database_error_writes_failed (cfg : DeliverConfig)
    (entry : SampleEntry) (w : SampleWorld) (hr : w.readOk = false)
    (hw : w.writeFail "FAILED" = none) :
    deliver_sample cfg entry w
      = ⟨.error .databaseError, [.statusWrite "FAILED"],
          setDelivery entry "FAILED"⟩ := by
  simp [deliver_sample, deliver_sample_body, hr, tryWrite, hw]

/-- Witness for C3 amended at a concrete entry. -/
theorem c3_witness :
    deliver_sample ⟨false, false, false, false⟩
      ⟨.str "ANALYZED", .str "STALE", .str "NOT_DELIVERED"⟩
      ⟨false, fun _ => none, .ok true, .ok true, none, none, none⟩
      = ⟨.error .databaseError, [.statusWrite "FAILED"],
          setDelivery ⟨.str "ANALYZED", .str "STALE", .str "NOT_DELIVERED"⟩ "FAILED"⟩ :=
  c3_database_error_writes_failed ⟨false, false, false, false⟩
    ⟨.str "ANALYZED", .str "STALE", .str "NOT_DELIVERED"⟩
    ⟨false, fun _ => none, .ok true, .ok true, none, none, none⟩
    rfl rfl

/-- C2: when any exception escapes deliver_sample (and the status store
accepts writes), the wrapper has set the stored delivery status before
propagating: to NOT_DELIVERED for a DelivererInterruptedError and to
FAILED for every other exception class; in particular the store is never
left at IN_PROGRESS after a failed attempt. -/
theorem deliver_sample_wrap_interrupted (cfg : DeliverConfig)
    (entry : SampleEntry) (w : SampleWorld) (evs : List Ev) (e : SampleEntry)
    (hb : deliver_sample_body cfg entry w = (.error .interrupted, evs, e))
    (hw : w.writeFail "NOT_DELIVERED" = none) :
    deliver_sample cfg entry w
      = ⟨.error .interrupted, evs ++ [.statusWrite "NOT_DELIVERED"],
          setDelivery e "NOT_DELIVERED"⟩ := by
  simp [deliver_sample, hb, tryWrite, hw]

theorem deliver_sample_wrap_other (cfg : DeliverConfig) (entry : SampleEntry)
    (w : SampleWorld) (exb : Exn) (evs : List Ev) (e : SampleEntry)
    (hne : exb ≠ .interrupted)
    (hb : deliver_sample_body cfg entry w = (.error exb, evs, e))
    (hw : w.writeFail "FAILED" = none) :
    deliver_sample cfg entry w
      = ⟨.error exb, evs ++ [.statusWrite "FAILED"], setDelivery e "FAILED"⟩ := by
  cases exb
  · exact absurd rfl hne
  all_goals simp [deliver_sample, hb, tryWrite, hw]

theorem c2_wrapper_resets_status (cfg : DeliverConfig) (entry : SampleEntry)
    (w : SampleWorld) (hw : ∀ s, w.writeFail s = none) (ex : Exn)
    (h : (deliver_sample cfg entry w).ret = .error ex) :
    ((ex = .interrupted →
        (deliver_sample cfg entry w).final.delivery_status = .str "NOT_DELIVERED")
      ∧ (ex ≠ .interrupted →
        (deliver_sample cfg entry w).final.delivery_status = .str "FAILED"))
    ∧ (deliver_sample cfg entry w).final.delivery_status ≠ .str "IN_PROGRESS" := by
  rcases hb : deliver_sample_body cfg entry w with ⟨r, evs, e⟩
  rcases r with exb | b
  · by_cases hi : exb = .interrupted
    · subst hi
      have hd := deliver_sample_wrap_interrupted cfg entry w evs e hb (hw _)
      rw [hd] at h ⊢
      simp only [Except.error.injEq] at h
      subst h
      simp [setDelivery]
    · have hd := deliver_sample_wrap_other cfg entry w exb evs e hi hb (hw _)
      rw [hd] at h ⊢
      simp only [Except.error.injEq] at h
      subst h
      simp [setDelivery, hi]
  · simp [deliver_sample, hb] at h

/-- Witness for C2: an interruption signal raised inside the transfer
step leaves the store at NOT_DELIVERED. -/
theorem c2_witness :
    (deliver_sample ⟨false, false, false, false⟩
      ⟨.str "ANALYZED", .str "STALE", .str "NOT_DELIVERED"⟩
      ⟨true, fun _ => none, .ok true, .error .interrupted, none, none, none⟩).final.delivery_status
      = .str "NOT_DELIVERED" :=
  ((c2_wrapper_resets_status ⟨false, false, false, false⟩
      ⟨.str "ANALYZED", .str "STALE", .str "NOT_DELIVERED"⟩
      ⟨true, fun _ => none, .ok true, .error .interrupted, none, none, none⟩
      (fun _ => rfl) .interrupted (by decide)).1).1 rfl

/-- Counterexample for C5: a sample marked ABORTED whose stored delivery
status is IN_PROGRESS does not return success regardless of prior delivery
status; the in-progress guard fires first and the call returns False. -/
theorem c5_counterexample :
    deliver_sample ⟨false, false, false, false⟩
      ⟨.str "ANALYZED", .str "ABORTED", .str "IN_PROGRESS"⟩
      ⟨true, fun _ => none, .ok true, .ok true, none, none, none⟩
      = ⟨.ok false, [],
          ⟨.str "ANALYZED", .str "ABORTED", .str "IN_PROGRESS"⟩⟩ := by
  decide

/-- C5 amended: for a sample whose sample status is ABORTED and which
reaches the aborted branch (the store is readable and the analysis,
already-delivered and in-progress guards ahead of it do not fire),
deliver_sample returns True and never invokes staging or the transfer
backend; the delivery status is rewritten to NOT_DELIVERED whenever the
status getter yields a truthy value, which includes an absent field
because the getter defaults to the string NOT_DELIVERED, and the field is
left unchanged only when it is present with a null or empty value. -/
theorem c5_aborted_normalization (cfg : DeliverConfig) (entry : SampleEntry)
    (w : SampleWorld) (hr : w.readOk = true)
    (hab : get_sample_status entry = some "ABORTED")
    (hg1 : ¬(get_analysis_status entry ≠ some "ANALYZED" ∧ ¬ cfg.force
        ∧ ¬ cfg.ignore_analysis_status))
    (hg2 : ¬(get_delivery_status entry = some "DELIVERED" ∧ ¬ cfg.force))
    (hg3 : ¬(get_delivery_status entry = some "IN_PROGRESS" ∧ ¬ cfg.force))
    (hw : w.writeFail "NOT_DELIVERED" = none) :
    deliver_sample cfg entry w =
      if truthy (get_delivery_status entry) then
        ⟨.ok true, [.statusWrite "NOT_DELIVERED"],
          setDelivery entry "NOT_DELIVERED"⟩
      else
        ⟨.ok true, [], entry⟩ := by
  simp only [Bool.not_eq_true] at hg1 hg2 hg3
  by_cases ht : truthy (get_delivery_status entry) = true
  · simp [deliver_sample, deliver_sample_body, hr, hg1, hg2, hg3, hab, ht,
      tryWrite, hw]
  · simp [deliver_sample, deliver_sample_body, hr, hg1, hg2, hg3, hab, ht,
      tryWrite, hw]

/-- Witness for C5 amended: an ABORTED sample with an absent
delivery_status field gets the field written to NOT_DELIVERED (the getter
default is truthy) and the call returns True with no staging or transfer. -/
theorem c5_witness :
    deliver_sample ⟨false, false, false, false⟩
      ⟨.str "ANALYZED", .str "ABORTED", .absent⟩
      ⟨true, fun _ => none, .ok true, .ok true, none, none, none⟩
      = ⟨.ok true, [.statusWrite "NOT_DELIVERED"],
          ⟨.str "ANALYZED", .str "ABORTED", .str "NOT_DELIVERED"⟩⟩ := by
  have h := c5_aborted_normalization ⟨false, false, false, false⟩
    ⟨.str "ANALYZED", .str "ABORTED", .absent⟩
    ⟨true, fun _ => none, .ok true, .ok true, none, none, none⟩
    rfl (by decide) (by decide) (by decide) (by decide) rfl
  rw [h]
  decide

set_option maxHeartbeats 4000000 in
/-- The body of deliver_sample only ever rewrites the delivery_status
field: analysis status and sample status are preserved. -/
theorem deliver_sample_body_preserves (cfg : DeliverConfig)
    (entry : SampleEntry) (w : SampleWorld) :
    (deliver_sample_body cfg entry w).2.2.analysis_status = entry.analysis_status
    ∧ (deliver_sample_body cfg entry w).2.2.status = entry.status := by
  rcases hw1 : w.writeFail "NOT_DELIVERED" with _ | ex1 <;>
    rcases hw2 : w.writeFail "IN_PROGRESS" with _ | ex2 <;>
      rcases hw3 : w.writeFail "DELIVERED" with _ | ex3 <;>
        rcases hw4 : w.writeFail "STAGED" with _ | ex4 <;>
          (unfold deliver_sample_body aggregateStep
           simp only [tryWrite, hw1, hw2, hw3, hw4]
           repeat' split
           all_goals simp [setDelivery])

/-- deliver_sample only ever rewrites the delivery_status field. -/
theorem deliver_sample_preserves (cfg : DeliverConfig) (entry : SampleEntry)
    (w : SampleWorld) :
    (deliver_sample cfg entry w).final.analysis_status = entry.analysis_status
    ∧ (deliver_sample cfg entry w).final.status = entry.status := by
  have hp := deliver_sample_body_preserves cfg entry w
  rcases hb : deliver_sample_body cfg entry w with ⟨r, evs, e⟩
  rw [hb] at hp
  simp only at hp
  rcases r with exb | b
  · by_cases hi : exb = .interrupted
    · subst hi
      rcases hwf : w.writeFail "NOT_DELIVERED" with _ | ex2
      · simp [deliver_sample, hb, tryWrite, hwf, setDelivery, hp.1, hp.2]
      · simp [deliver_sample, hb, tryWrite, hwf, hp.1, hp.2]
    · rcases hwf : w.writeFail "FAILED" with _ | ex2 <;> cases exb <;>
        first
        | exact absurd rfl hi
        | simp [deliver_sample, hb, tryWrite, hwf, setDelivery, hp.1, hp.2]
  · simp [deliver_sample, hb, hp.1, hp.2]

/-- A deliver_sample call that returned True cannot have been blocked by
the analysis guard: either the analysis status is ANALYZED or one of the
force and ignore_analysis_status flags is set. -/
theorem deliver_sample_ok_true_analysis (cfg : DeliverConfig)
    (entry : SampleEntry) (w : SampleWorld)
    (h : (deliver_sample cfg entry w).ret = .ok true) :
    ¬(get_analysis_status entry ≠ some "ANALYZED" ∧ ¬ cfg.force
        ∧ ¬ cfg.ignore_analysis_status) := by
  intro hc
  by_cases hrd : w.readOk = true
  · have hb : deliver_sample_body cfg entry w = (.ok false, [], entry) := by
      rw [deliver_sample_body, if_neg (by simp [hrd]), if_pos hc]
    simp [deliver_sample, hb] at h
  · have hb : deliver_sample_body cfg entry w
        = (.error .databaseError, [], entry) := by
      rw [deliver_sample_body, if_pos (by simp_all)]
    rcases hwf : w.writeFail "FAILED" with _ | ex2 <;>
      simp [deliver_sample, hb, tryWrite, hwf] at h

/-- C4: deliver_sample is idempotent across a delivered state: if a first
unforced call returned True and left the stored delivery status at
DELIVERED, a second unforced call on the resulting state (with the store
readable and nothing changed in between) returns True through the
already-delivered short-circuit, with no staging, no transfer, no status
write and no other effect. -/
theorem c4_idempotent_delivered (cfg : DeliverConfig) (entry : SampleEntry)
    (w w2 : SampleWorld) (hf : cfg.force = false)
    (h1 : (deliver_sample cfg entry w).ret = .ok true)
    (h2 : (deliver_sample cfg entry w).final.delivery_status = .str "DELIVERED")
    (hr : w2.readOk = true) :
    deliver_sample cfg (deliver_sample cfg entry w).final w2
      = ⟨.ok true, [], (deliver_sample cfg entry w).final⟩ := by
  set f := (deliver_sample cfg entry w).final with hfeq
  have hpres := deliver_sample_preserves cfg entry w
  rw [← hfeq] at hpres
  have hga : get_analysis_status f = get_analysis_status entry := by
    simp [get_analysis_status, hpres.1]
  have hgd : get_delivery_status f = some "DELIVERED" := by
    simp [get_delivery_status, h2, pyGet]
  have hna := deliver_sample_ok_true_analysis cfg entry w h1
  have hg1 : ¬(get_analysis_status f
      ≠ some "ANALYZED" ∧ ¬ cfg.force ∧ ¬ cfg.ignore_analysis_status) := by
    rw [hga]
    exact hna
  have hbody : deliver_sample_body cfg f w2 = (.ok true, [], f) := by
    rw [deliver_sample_body, if_neg (by simp [hr]), if_neg hg1,
      if_pos ⟨hgd, by simp [hf]⟩]
  simp [deliver_sample, hbody]

/-- Witness for C4: after a successful concrete delivery, the second
unforced call returns True with an empty effect trace. -/
theorem c4_witness :
    deliver_sample ⟨false, false, false, false⟩
      (deliver_sample ⟨false, false, false, false⟩
        ⟨.str "ANALYZED", .str "STALE", .str "NOT_DELIVERED"⟩
        ⟨true, fun _ => none, .ok true, .ok true, none, none, none⟩).final
      ⟨true, fun _ => none, .ok true, .ok true, none, none, none⟩
      = ⟨.ok true, [],
          (deliver_sample ⟨false, false, false, false⟩
            ⟨.str "ANALYZED", .str "STALE", .str "NOT_DELIVERED"⟩
            ⟨true, fun _ => none, .ok true, .ok true, none, none, none⟩).final⟩ :=
  c4_idempotent_delivered ⟨false, false, false, false⟩
    ⟨.str "ANALYZED", .str "STALE", .str "NOT_DELIVERED"⟩
    ⟨true, fun _ => none, .ok true, .ok true, none, none, none⟩
    ⟨true, fun _ => none, .ok true, .ok true, none, none, none⟩
    rfl (by decide) (by decide) rfl

/-- C7: deliver_project writes a project-level delivery status only by
the aggregation rule: every write it attempts carries the value DELIVERED
(STAGED in stage_only mode) and happens only when every non-ABORTED sample
entry is DELIVERED after the sample loop; and conversely, when the run
returns normally without taking the already-delivered short-circuit and
the aggregation condition holds, exactly that one write is issued. In
every other case the project-level status is left untouched. -/
theorem c7_project_status_aggregation (cfg : DeliverConfig)
    (pentry : ProjEntry) (pw : ProjWorld) :
    (∀ s ∈ (deliver_project cfg pentry pw).projWrites,
        s = (if cfg.stage_only then "STAGED" else "DELIVERED"))
    ∧ ((deliver_project cfg pentry pw).projWrites ≠ [] →
        all_samples_delivered (deliver_project cfg pentry pw).finalSamples = true)
    ∧ (∀ b, (deliver_project cfg pentry pw).ret = .ok b →
        ¬(get_proj_delivery_status pentry = some "DELIVERED" ∧ ¬ cfg.force) →
        all_samples_delivered (deliver_project cfg pentry pw).finalSamples = true →
        (deliver_project cfg pentry pw).projWrites
          = [if cfg.stage_only then "STAGED" else "DELIVERED"]) := by
  unfold deliver_project
  repeat' split
  all_goals simp_all

/-- Witness for C7: an unforced run over a project with no samples (the
aggregation over the empty list holds) issues exactly the DELIVERED
project-level write. -/
theorem c7_witness :
    (deliver_project ⟨false, false, false, false⟩ ⟨.str "NOT_DELIVERED"⟩
        ⟨true, true, [], none, none, false, none, none, none⟩).projWrites
      = ["DELIVERED"] := by
  have h := (c7_project_status_aggregation ⟨false, false, false, false⟩
    ⟨.str "NOT_DELIVERED"⟩
    ⟨true, true, [], none, none, false, none, none, none⟩).2.2 true
    (by decide) (by decide) (by decide)
  simpa using h

end Taca
